import Mathlib

/-!
Shallow embedding of the VideoChatApp signaling backend
(`src/controller/userController.js`, the controller wired into the servers via
`require('./controller/userController')`), together with its HTTP meeting
endpoints. JavaScript `Map`s are modelled as association lists with
JS-`Map` semantics (`set` overwrites in place, `delete` removes, iteration in
insertion order); the Mongo user collection is the `directory` field; `jwt.verify`
is modelled by `jwtVerify` on an abstract credential; `uuidv4` values are passed
in as explicit fresh arguments; `new Date()` is an explicit `now : Nat`;
`socket.emit` / `socket.to(room).emit` / `io.to(room).emit` / `io.to(socketId).emit`
are recorded in an output list of `Emit` values.
-/

namespace VideoChat

abbrev UserId := Nat
abbrev SocketId := Nat
abbrev RoomId := Nat
abbrev Handle := Nat

/-- Participant map of one meeting: userId -> videoCallId, in insertion order. -/
abbrev Parts := List (UserId × Handle)

/-- `Map.get`: first binding of the key. -/
def mfind {β : Type} (m : List (Nat × β)) (k : Nat) : Option β :=
  match m with
  | [] => none
  | (k', v) :: rest => if k = k' then some v else mfind rest k

/-- `Map.set`: overwrite in place if present, else append at the end. -/
def mset {β : Type} (m : List (Nat × β)) (k : Nat) (v : β) : List (Nat × β) :=
  match m with
  | [] => [(k, v)]
  | (k', v') :: rest => if k = k' then (k, v) :: rest else (k', v') :: mset rest k v

/-- `Map.delete`: remove the binding of the key. -/
def merase {β : Type} (m : List (Nat × β)) (k : Nat) : List (Nat × β) :=
  match m with
  | [] => []
  | (k', v') :: rest => if k = k' then merase rest k else (k', v') :: merase rest k

/-- One document of the Mongo `User` collection, restricted to the fields the
controller reads or writes: `videoCallId` (absent until first assigned),
`isOnline`, `lastSeen`. -/
structure UserRec where
  videoCallId : Option Handle
  isOnline : Bool
  lastSeen : Nat
deriving DecidableEq, Repr

/-- The module-level mutable state of `userController.js`: the three memory maps
`activeUsers`, `socketToUser`, `meetings`, plus the user directory. -/
structure ServerState where
  activeUsers : List (UserId × SocketId)
  socketToUser : List (SocketId × UserId)
  meetings : List (RoomId × Parts)
  directory : List (UserId × UserRec)
deriving DecidableEq, Repr

/-- A bearer credential: either a valid JWT encoding a userId, or invalid. -/
inductive Cred where
  | valid (uid : UserId)
  | invalid
deriving DecidableEq, Repr

/-- `jwt.verify`: returns the encoded id or throws (modelled as `none`). -/
def jwtVerify : Cred → Option UserId
  | Cred.valid u => some u
  | Cred.invalid => none

/-- Where an emitted socket message goes. -/
inductive EmitTarget where
  | caller (s : SocketId)
  | roomExceptCaller (r : RoomId) (s : SocketId)
  | room (r : RoomId)
  | socket (s : SocketId)
deriving DecidableEq, Repr

/-- Payload shapes emitted by the wired controller. `participantsUpdate` exists
in the event vocabulary (an unwired variant emits it) but the wired controller
never produces it. -/
inductive Payload where
  | authOk (videoCallId : Handle)
  | authFail (message : String)
  | meetingCreated (meetingId : RoomId)
  | joinFailed (message : String)
  | userJoinedOthers (userId : UserId) (videoCallId : Handle) (meetingId : RoomId)
  | userJoinedSelf (userId : UserId) (videoCallId : Handle) (meetingId : RoomId)
      (existingUsers : List Handle)
  | userLeft (userId : UserId) (videoCallId : Option Handle)
  | participantsUpdate (count : Nat) (users : List Handle)
  | offerMsg (sender : Option Handle) (payload : Nat)
  | answerMsg (sender : Option Handle) (payload : Nat)
  | iceMsg (sender : Option Handle) (payload : Nat)
deriving DecidableEq, Repr

/-- One emitted socket message. -/
structure Emit where
  target : EmitTarget
  payload : Payload
deriving DecidableEq, Repr

/-- `User.findByIdAndUpdate`: update the record if present, else no-op. -/
def updateUser (dir : List (UserId × UserRec)) (uid : UserId)
    (f : UserRec → UserRec) : List (UserId × UserRec) :=
  match mfind dir uid with
  | none => dir
  | some r => mset dir uid (f r)

/-- The `'authenticate'` handler. On a valid token whose user exists: assign a
fresh `videoCallId` if unset, install both Connection Registry bindings
(without evicting any previous binding of the same user), mark online with a
fresh `lastSeen`, and acknowledge with the handle. A bad token, or a missing
user (where `user.videoCallId` throws), lands in the catch block: failure
acknowledgment, no state change. -/
def onAuthenticate (st : ServerState) (sock : SocketId) (cred : Cred)
    (freshHandle : Handle) (now : Nat) : ServerState × List Emit :=
  match jwtVerify cred with
  | none => (st, [⟨EmitTarget.caller sock, Payload.authFail "Invalid token"⟩])
  | some userId =>
    match mfind st.directory userId with
    | none => (st, [⟨EmitTarget.caller sock, Payload.authFail "Invalid token"⟩])
    | some user =>
      let handle := user.videoCallId.getD freshHandle
      let dir1 :=
        match user.videoCallId with
        | some _ => st.directory
        | none => mset st.directory userId { user with videoCallId := some freshHandle }
      let dir2 := updateUser dir1 userId
        (fun r => { r with isOnline := true, lastSeen := now })
      ({ st with
          activeUsers := mset st.activeUsers userId sock,
          socketToUser := mset st.socketToUser sock userId,
          directory := dir2 },
       [⟨EmitTarget.caller sock, Payload.authOk handle⟩])

/-- The `'create-meeting'` handler: install a fresh empty meeting and
acknowledge the caller with its id. -/
def onCreateMeeting (st : ServerState) (sock : SocketId) (freshRoom : RoomId) :
    ServerState × List Emit :=
  ({ st with meetings := mset st.meetings freshRoom [] },
   [⟨EmitTarget.caller sock, Payload.meetingCreated freshRoom⟩])

/-- The `'join-meeting'` handler. Unknown meeting: `join-failed` and return.
Bad token or missing user: `join-failed "Invalid token"` via the catch block.
Duplicate join: `join-failed "User already in meeting"`, meeting untouched.
Otherwise add the user and emit `user-joined` to the others and to self (the
self copy carrying the existing users' handles). The source re-reads
`meetings.get(meetingId)` after the directory accesses; directory writes never
change `meetings`, so the single read here is equivalent. -/
def onJoinMeeting (st : ServerState) (sock : SocketId) (meetingId : RoomId)
    (cred : Cred) (freshHandle : Handle) : ServerState × List Emit :=
  match mfind st.meetings meetingId with
  | none => (st, [⟨EmitTarget.caller sock, Payload.joinFailed "Meeting does not exist"⟩])
  | some currentMeeting =>
    match jwtVerify cred with
    | none => (st, [⟨EmitTarget.caller sock, Payload.joinFailed "Invalid token"⟩])
    | some userId =>
      match mfind st.directory userId with
      | none => (st, [⟨EmitTarget.caller sock, Payload.joinFailed "Invalid token"⟩])
      | some user =>
        let handle := user.videoCallId.getD freshHandle
        let dir1 :=
          match user.videoCallId with
          | some _ => st.directory
          | none => mset st.directory userId { user with videoCallId := some freshHandle }
        if (mfind currentMeeting userId).isSome then
          ({ st with directory := dir1 },
           [⟨EmitTarget.caller sock, Payload.joinFailed "User already in meeting"⟩])
        else
          let existingUsers :=
            (currentMeeting.filter (fun e => decide (e.1 ≠ userId))).map (fun e => e.2)
          ({ st with
              directory := dir1,
              meetings := mset st.meetings meetingId (mset currentMeeting userId handle) },
           [⟨EmitTarget.roomExceptCaller meetingId sock,
              Payload.userJoinedOthers userId handle meetingId⟩,
            ⟨EmitTarget.caller sock,
              Payload.userJoinedSelf userId handle meetingId existingUsers⟩])

/-- The `'leave-meeting'` handler. Unauthenticated socket or unknown meeting:
silent return. If the user is a participant: remove them, broadcast
`user-left` to the meeting (the leaver has already left the socket room), and
delete the meeting when it became empty. No `participants-update` is emitted
by the wired controller. -/
def onLeaveMeeting (st : ServerState) (sock : SocketId) (meetingId : RoomId) :
    ServerState × List Emit :=
  match mfind st.socketToUser sock with
  | none => (st, [])
  | some userId =>
    match mfind st.meetings meetingId with
    | none => (st, [])
    | some participants =>
      let videoCallId := mfind participants userId
      if (mfind participants userId).isSome then
        let participants2 := merase participants userId
        if participants2.isEmpty then
          ({ st with meetings := merase st.meetings meetingId },
           [⟨EmitTarget.room meetingId, Payload.userLeft userId videoCallId⟩])
        else
          ({ st with meetings := mset st.meetings meetingId participants2 },
           [⟨EmitTarget.room meetingId, Payload.userLeft userId videoCallId⟩])
      else (st, [])

/-- `findUserIdByVideoCallId`: `User.findOne({ videoCallId })` — the first
directory entry whose stored handle matches. -/
def findUserIdByVideoCallId (dir : List (UserId × UserRec)) (h : Handle) :
    Option UserId :=
  match dir with
  | [] => none
  | (uid, u) :: rest =>
    if u.videoCallId = some h then some uid else findUserIdByVideoCallId rest h

/-- `getVideoCallIdByUserId`: `User.findById` then the stored handle, `none`
when the user is missing or has no handle. -/
def getVideoCallIdByUserId (dir : List (UserId × UserRec)) (uid : UserId) :
    Option Handle :=
  match mfind dir uid with
  | none => none
  | some u => u.videoCallId

/-- The `'offer'` handler: resolve target handle to userId (directory scan),
userId to socketId (`activeUsers`), the sender socket to its userId
(`socketToUser`); any failure silently returns. Additionally the offer is
dropped unless some meeting contains both sender and target. On success the
offer is relayed, tagged with the sender's current handle, to exactly the
target socket. -/
def onOffer (st : ServerState) (sock : SocketId) (target : Handle)
    (payload : Nat) : ServerState × List Emit :=
  match findUserIdByVideoCallId st.directory target with
  | none => (st, [])
  | some targetUserId =>
    match mfind st.activeUsers targetUserId with
    | none => (st, [])
    | some targetSocketId =>
      match mfind st.socketToUser sock with
      | none => (st, [])
      | some senderId =>
        let inSameMeeting := st.meetings.any
          (fun e => (mfind e.2 senderId).isSome && (mfind e.2 targetUserId).isSome)
        if inSameMeeting then
          (st, [⟨EmitTarget.socket targetSocketId,
                 Payload.offerMsg (getVideoCallIdByUserId st.directory senderId) payload⟩])
        else (st, [])

/-- The `'answer'` handler: same three resolutions as the offer, but no
same-meeting check; relay to exactly the target socket. -/
def onAnswer (st : ServerState) (sock : SocketId) (target : Handle)
    (payload : Nat) : ServerState × List Emit :=
  match findUserIdByVideoCallId st.directory target with
  | none => (st, [])
  | some targetUserId =>
    match mfind st.activeUsers targetUserId with
    | none => (st, [])
    | some targetSocketId =>
      match mfind st.socketToUser sock with
      | none => (st, [])
      | some senderId =>
        (st, [⟨EmitTarget.socket targetSocketId,
               Payload.answerMsg (getVideoCallIdByUserId st.directory senderId) payload⟩])

/-- The `'ice-candidate'` handler: identical structure to the answer relay. -/
def onIceCandidate (st : ServerState) (sock : SocketId) (target : Handle)
    (payload : Nat) : ServerState × List Emit :=
  match findUserIdByVideoCallId st.directory target with
  | none => (st, [])
  | some targetUserId =>
    match mfind st.activeUsers targetUserId with
    | none => (st, [])
    | some targetSocketId =>
      match mfind st.socketToUser sock with
      | none => (st, [])
      | some senderId =>
        (st, [⟨EmitTarget.socket targetSocketId,
               Payload.iceMsg (getVideoCallIdByUserId st.directory senderId) payload⟩])

/-- The `meetings.forEach` loop of the `'disconnect'` handler: walk the rooms
in insertion order; in each room containing the user, remove them, emit
`user-left` to the room, and drop the room when it became empty. -/
def cleanupRooms (userId : UserId) :
    List (RoomId × Parts) → List (RoomId × Parts) × List Emit
  | [] => ([], [])
  | (meetingId, participants) :: rest =>
    match mfind participants userId with
    | none =>
      ((meetingId, participants) :: (cleanupRooms userId rest).1,
       (cleanupRooms userId rest).2)
    | some videoCallId =>
      let participants2 := merase participants userId
      if participants2.isEmpty then
        ((cleanupRooms userId rest).1,
         ⟨EmitTarget.room meetingId, Payload.userLeft userId (some videoCallId)⟩
           :: (cleanupRooms userId rest).2)
      else
        ((meetingId, participants2) :: (cleanupRooms userId rest).1,
         ⟨EmitTarget.room meetingId, Payload.userLeft userId (some videoCallId)⟩
           :: (cleanupRooms userId rest).2)

/-- The `'disconnect'` handler. Unauthenticated socket: silent return.
Otherwise delete both Connection Registry bindings, mark the user offline with
a fresh `lastSeen`, and run the per-room cleanup. -/
def onDisconnect (st : ServerState) (sock : SocketId) (now : Nat) :
    ServerState × List Emit :=
  match mfind st.socketToUser sock with
  | none => (st, [])
  | some userId =>
    ({ activeUsers := merase st.activeUsers userId,
       socketToUser := merase st.socketToUser sock,
       meetings := (cleanupRooms userId st.meetings).1,
       directory := updateUser st.directory userId
         (fun r => { r with isOnline := false, lastSeen := now }) },
     (cleanupRooms userId st.meetings).2)

/-- An HTTP response, restricted to the fields the two controllers produce. -/
structure HttpResp where
  status : Nat
  success : Bool
  message : Option String
  meetingId : Option RoomId
  videoCallId : Option Handle
deriving DecidableEq, Repr

/-- HTTP `createMeeting`: install a fresh empty meeting in the same module
`meetings` map the socket handlers use, and answer with its id. -/
def createMeeting (st : ServerState) (freshRoom : RoomId) :
    ServerState × HttpResp × List Emit :=
  ({ st with meetings := mset st.meetings freshRoom [] },
   { status := 200, success := true, message := none,
     meetingId := some freshRoom, videoCallId := none }, [])

/-- HTTP `joinMeeting`. Missing/non-Bearer header (modelled as `none`): 401.
Unknown meeting: 400 `Meeting not found`. Bad token or missing user: the catch
block answers 500 `Server error`. Otherwise assign a handle if unset, add the
user to the meeting only if not already present, and answer 200 with the
meeting id and the user's current handle. The HTTP surface emits no socket
broadcast. The source re-reads `meetings.get(meetingId)` after the directory
accesses; directory writes never change `meetings`, so the single read here is
equivalent. -/
def joinMeeting (st : ServerState) (auth : Option Cred) (meetingId : RoomId)
    (freshHandle : Handle) : ServerState × HttpResp × List Emit :=
  match auth with
  | none =>
    (st, { status := 401, success := false, message := some "Unauthorized",
           meetingId := none, videoCallId := none }, [])
  | some cred =>
    match mfind st.meetings meetingId with
    | none =>
      (st, { status := 400, success := false, message := some "Meeting not found",
             meetingId := none, videoCallId := none }, [])
    | some participants =>
      match jwtVerify cred with
      | none =>
        (st, { status := 500, success := false, message := some "Server error",
               meetingId := none, videoCallId := none }, [])
      | some userId =>
        match mfind st.directory userId with
        | none =>
          (st, { status := 500, success := false, message := some "Server error",
                 meetingId := none, videoCallId := none }, [])
        | some user =>
          let handle := user.videoCallId.getD freshHandle
          let dir1 :=
            match user.videoCallId with
            | some _ => st.directory
            | none => mset st.directory userId { user with videoCallId := some freshHandle }
          let meetings2 :=
            if (mfind participants userId).isSome then st.meetings
            else mset st.meetings meetingId (mset participants userId handle)
          ({ st with directory := dir1, meetings := meetings2 },
           { status := 200, success := true, message := some "Meeting joined",
             meetingId := some meetingId, videoCallId := some handle }, [])

/-- What the disconnect cleanup does to a single meeting entry: untouched when
the user is not a participant, dropped when removing the user empties it,
otherwise the entry with the user removed. -/
def cleanupEntry (userId : UserId) (e : RoomId × Parts) : Option (RoomId × Parts) :=
  match mfind e.2 userId with
  | none => some e
  | some _ =>
    if (merase e.2 userId).isEmpty then none else some (e.1, merase e.2 userId)

theorem mfind_mset_self {β : Type} (m : List (Nat × β)) (k : Nat) (v : β) :
    mfind (mset m k v) k = some v := by
  induction m with
  | nil => simp [mset, mfind]
  | cons e rest ih =>
    obtain ⟨k', v'⟩ := e
    by_cases hk : k = k'
    · simp [mset, hk, mfind]
    · simp [mset, hk, mfind, ih]

theorem mfind_merase_self {β : Type} (m : List (Nat × β)) (k : Nat) :
    mfind (merase m k) k = none := by
  induction m with
  | nil => simp [merase, mfind]
  | cons e rest ih =>
    obtain ⟨k', v'⟩ := e
    by_cases hk : k = k'
    · subst hk; simp [merase, ih]
    · simp [merase, hk, mfind, ih]

theorem cleanupRooms_fst (userId : UserId) (ms : List (RoomId × Parts)) :
    (cleanupRooms userId ms).1 = ms.filterMap (cleanupEntry userId) := by
  induction ms with
  | nil => simp [cleanupRooms]
  | cons e rest ih =>
    obtain ⟨r, parts⟩ := e
    cases hp : mfind parts userId with
    | none => simp [cleanupRooms, hp, cleanupEntry, ih]
    | some h =>
      by_cases he : (merase parts userId).isEmpty
      · simp [cleanupRooms, hp, he, cleanupEntry, ih]
      · simp [cleanupRooms, hp, he, cleanupEntry, ih]

theorem cleanupRooms_snd (userId : UserId) (ms : List (RoomId × Parts)) :
    (cleanupRooms userId ms).2 =
      (ms.filter (fun e => (mfind e.2 userId).isSome)).map
        (fun e => ⟨EmitTarget.room e.1, Payload.userLeft userId (mfind e.2 userId)⟩) := by
  induction ms with
  | nil => simp [cleanupRooms]
  | cons e rest ih =>
    obtain ⟨r, parts⟩ := e
    cases hp : mfind parts userId with
    | none => simp [cleanupRooms, hp, ih]
    | some h =>
      by_cases he : (merase parts userId).isEmpty
      · simp [cleanupRooms, hp, he, ih]
      · simp [cleanupRooms, hp, he, ih]

/-- A registry state with no live connections and one directory user. -/
def c1State : ServerState :=
  { activeUsers := [], socketToUser := [], meetings := [],
    directory := [(7, ⟨some 100, false, 0⟩)] }

/-- A state with users 7 (handle 100, socket 1) and 8 (handle 200, socket 2),
both participants of meeting 5. -/
def baseState : ServerState :=
  { activeUsers := [(7, 1), (8, 2)], socketToUser := [(1, 7), (2, 8)],
    meetings := [(5, [(7, 100), (8, 200)])],
    directory := [(7, ⟨some 100, true, 0⟩), (8, ⟨some 200, true, 0⟩)] }

/-- A completely empty registry state. -/
def emptyState : ServerState :=
  { activeUsers := [], socketToUser := [], meetings := [], directory := [] }

/-- Like `baseState` but only user 7 is a participant of meeting 5, so sender 8
and target 7 share no meeting. -/
def c4State : ServerState :=
  { activeUsers := [(7, 1), (8, 2)], socketToUser := [(1, 7), (2, 8)],
    meetings := [(5, [(7, 100)])],
    directory := [(7, ⟨some 100, true, 0⟩), (8, ⟨some 200, true, 0⟩)] }

/-- C1: the claimed bijection of the Connection Registry fails on the code.
After user 7 authenticates on socket 1 and then re-authenticates on socket 2,
the authenticate handler installs the new binding without evicting the old
one: `socketToUser` still maps socket 1 to user 7 while also mapping socket 2
to user 7, so two live socketIds resolve to the same userId and the pairing is
not a bijection. The spec (§9) itself flags this dangling-mapping gap in the
original logic and prescribes eviction, so the code, not the claim, is at
fault. -/
theorem c1_reauth_leaves_stale_binding :
    mfind ((onAuthenticate (onAuthenticate c1State 1 (Cred.valid 7) 999 10).1
        2 (Cred.valid 7) 999 11).1).socketToUser 1 = some 7
    ∧ mfind ((onAuthenticate (onAuthenticate c1State 1 (Cred.valid 7) 999 10).1
        2 (Cred.valid 7) 999 11).1).socketToUser 2 = some 7
    ∧ mfind ((onAuthenticate (onAuthenticate c1State 1 (Cred.valid 7) 999 10).1
        2 (Cred.valid 7) 999 11).1).activeUsers 7 = some 2 := by decide

/-- C2 counterexample: when user 7 leaves meeting 5 (with user 8 remaining),
the complete emit list of the wired leave handler is the single `user-left`
broadcast — no `participants-update` broadcast follows, refuting the claim
that every leave is followed by a `participants-update` with the refreshed
count and handle set. -/
theorem c2_counterexample :
    (onLeaveMeeting baseState 1 5).2 =
      [⟨EmitTarget.room 5, Payload.userLeft 7 (some 100)⟩] := by decide

/-- C3 counterexample: `createMeeting` (HTTP) and the `create-meeting` socket
handler each install a room with an empty participant map that remains in the
registry after the operation completes, refuting the claim that no operation
leaves an empty room. -/
theorem c3_counterexample :
    mfind (createMeeting emptyState 42).1.meetings 42 = some []
    ∧ mfind (onCreateMeeting emptyState 1 42).1.meetings 42 = some [] := by decide

/-- C4 counterexample: in `c4State` all three resolution steps for an offer
from socket 2 (user 8) to call-handle 100 succeed — the handle resolves to
user 7, user 7 has live socket 1, and the sender socket resolves to user 8 —
yet the offer is dropped with no emit, because the offer handler additionally
requires sender and target to share a meeting. This refutes the claim that
resolution success alone implies forwarding. -/
theorem c4_counterexample :
    findUserIdByVideoCallId c4State.directory 100 = some 7
    ∧ mfind c4State.activeUsers 7 = some 1
    ∧ mfind c4State.socketToUser 2 = some 8
    ∧ onOffer c4State 2 100 33 = (c4State, []) := by decide

/-- C2 amended: for every leave-meeting by a current participant, the room
receives exactly the one `user-left` broadcast (carrying the leaver's id and
stored handle) and nothing else; and the disconnect cleanup emits exactly one
`user-left` room broadcast per room that contained the user, in registry
order, and nothing else. No `participants-update` is ever emitted on leave or
disconnect. -/
theorem c2_leave_emits_only_user_left (st : ServerState) (sock : SocketId)
    (meetingId : RoomId) (u : UserId) (h : Handle) (parts : Parts) (now : Nat)
    (hu : mfind st.socketToUser sock = some u)
    (hm : mfind st.meetings meetingId = some parts)
    (hp : mfind parts u = some h) :
    (onLeaveMeeting st sock meetingId).2 =
      [⟨EmitTarget.room meetingId, Payload.userLeft u (some h)⟩]
    ∧ (onDisconnect st sock now).2 =
        (st.meetings.filter (fun e => (mfind e.2 u).isSome)).map
          (fun e => ⟨EmitTarget.room e.1, Payload.userLeft u (mfind e.2 u)⟩) := by
  constructor
  · simp only [onLeaveMeeting, hu, hm, hp, Option.isSome_some, if_true]
    by_cases he : (merase parts u).isEmpty <;> simp [he]
  · simp only [onDisconnect, hu]
    exact cleanupRooms_snd u st.meetings

/-- C2 witness: instantiating the amended theorem at `baseState`, the leave of
user 7 from meeting 5 emits exactly the single `user-left` broadcast. -/
theorem c2_witness :
    (onLeaveMeeting baseState 1 5).2 =
      [⟨EmitTarget.room 5, Payload.userLeft 7 (some 100)⟩] :=
  (c2_leave_emits_only_user_left baseState 1 5 7 100 [(7, 100), (8, 200)] 50
    rfl rfl rfl).1

/-- C3 amended: whenever a leave or a disconnect removes a participant and the
room's roster becomes empty, the room is deleted immediately (for disconnect
this is the `cleanupEntry` characterisation: the emptied entry is dropped from
the registry); but room creation — HTTP `createMeeting` and the socket
`create-meeting` event — installs a room with zero participants which remains
in the registry. -/
theorem c3_empty_room_destruction (st : ServerState) (sock : SocketId)
    (meetingId freshRoom : RoomId) (u : UserId) (h : Handle) (parts : Parts)
    (now : Nat)
    (hu : mfind st.socketToUser sock = some u)
    (hm : mfind st.meetings meetingId = some parts)
    (hp : mfind parts u = some h)
    (he : merase parts u = []) :
    mfind (onLeaveMeeting st sock meetingId).1.meetings meetingId = none
    ∧ (onDisconnect st sock now).1.meetings = st.meetings.filterMap (cleanupEntry u)
    ∧ cleanupEntry u (meetingId, parts) = none
    ∧ mfind (createMeeting st freshRoom).1.meetings freshRoom = some []
    ∧ mfind (onCreateMeeting st sock freshRoom).1.meetings freshRoom = some [] := by
  refine ⟨?_, ?_, ?_, ?_, ?_⟩
  · simp only [onLeaveMeeting, hu, hm, hp, Option.isSome_some, if_true]
    simp [he, mfind_merase_self]
  · simp only [onDisconnect, hu]
    exact cleanupRooms_fst u st.meetings
  · simp [cleanupEntry, hp, he]
  · simp [createMeeting, mfind_mset_self]
  · simp [onCreateMeeting, mfind_mset_self]

/-- C3 witness: in `c4State`, user 7 is the sole participant of meeting 5;
after their leave the meeting is gone from the registry. -/
theorem c3_witness :
    mfind (onLeaveMeeting c4State 1 5).1.meetings 5 = none :=
  (c3_empty_room_destruction c4State 1 5 42 7 100 [(7, 100)] 50
    rfl rfl rfl rfl).1

/-- C4 amended: for every relay, if any of the three resolution steps fails
(target handle to userId, target userId to socketId, sender socketId to
userId) the message is silently dropped with no state change and no emit, for
all three kinds. When all three resolutions succeed, Answer and IceCandidate
are forwarded, tagged with the sender's current handle, to exactly the
target's socket; Offer is forwarded under the same tag exactly when some
meeting contains both sender and target, and is otherwise dropped. -/
theorem c4_relay_behaviour (st : ServerState) (sock : SocketId) (tgt : Handle)
    (p : Nat) :
    (findUserIdByVideoCallId st.directory tgt = none →
      onOffer st sock tgt p = (st, []) ∧ onAnswer st sock tgt p = (st, [])
        ∧ onIceCandidate st sock tgt p = (st, []))
    ∧ (∀ tuid, findUserIdByVideoCallId st.directory tgt = some tuid →
        mfind st.activeUsers tuid = none →
        onOffer st sock tgt p = (st, []) ∧ onAnswer st sock tgt p = (st, [])
          ∧ onIceCandidate st sock tgt p = (st, []))
    ∧ (∀ tuid tsock, findUserIdByVideoCallId st.directory tgt = some tuid →
        mfind st.activeUsers tuid = some tsock →
        mfind st.socketToUser sock = none →
        onOffer st sock tgt p = (st, []) ∧ onAnswer st sock tgt p = (st, [])
          ∧ onIceCandidate st sock tgt p = (st, []))
    ∧ (∀ tuid tsock suid, findUserIdByVideoCallId st.directory tgt = some tuid →
        mfind st.activeUsers tuid = some tsock →
        mfind st.socketToUser sock = some suid →
        onAnswer st sock tgt p =
            (st, [⟨EmitTarget.socket tsock,
              Payload.answerMsg (getVideoCallIdByUserId st.directory suid) p⟩])
          ∧ onIceCandidate st sock tgt p =
            (st, [⟨EmitTarget.socket tsock,
              Payload.iceMsg (getVideoCallIdByUserId st.directory suid) p⟩])
          ∧ (st.meetings.any
                (fun e => (mfind e.2 suid).isSome && (mfind e.2 tuid).isSome) = true →
              onOffer st sock tgt p =
                (st, [⟨EmitTarget.socket tsock,
                  Payload.offerMsg (getVideoCallIdByUserId st.directory suid) p⟩]))
          ∧ (st.meetings.any
                (fun e => (mfind e.2 suid).isSome && (mfind e.2 tuid).isSome) = false →
              onOffer st sock tgt p = (st, []))) := by
  refine ⟨?_, ?_, ?_, ?_⟩
  · intro h1
    exact ⟨by simp [onOffer, h1], by simp [onAnswer, h1], by simp [onIceCandidate, h1]⟩
  · intro tuid h1 h2
    exact ⟨by simp [onOffer, h1, h2], by simp [onAnswer, h1, h2],
      by simp [onIceCandidate, h1, h2]⟩
  · intro tuid tsock h1 h2 h3
    exact ⟨by simp [onOffer, h1, h2, h3], by simp [onAnswer, h1, h2, h3],
      by simp [onIceCandidate, h1, h2, h3]⟩
  · intro tuid tsock suid h1 h2 h3
    refine ⟨by simp [onAnswer, h1, h2, h3], by simp [onIceCandidate, h1, h2, h3],
      ?_, ?_⟩
    · intro hm; simp [onOffer, h1, h2, h3, hm]
    · intro hm; simp [onOffer, h1, h2, h3, hm]

/-- C4 witness: in `c4State` all three resolutions succeed for an answer from
socket 2 to handle 100, and the answer is relayed to exactly socket 1, tagged
with sender handle 200. -/
theorem c4_witness :
    onAnswer c4State 2 100 33 =
      (c4State, [⟨EmitTarget.socket 1, Payload.answerMsg (some 200) 33⟩]) := by
  have h := (c4_relay_behaviour c4State 2 100 33).2.2.2 7 1 8 rfl rfl rfl
  exact h.1.trans (by decide)

/-- C5: for every disconnect of an authenticated user, both Connection
Registry bindings are removed, the directory record is marked offline with the
fresh `lastSeen`, the Room Registry is exactly the per-entry cleanup of the
old one (the user removed everywhere, emptied rooms dropped), the user is a
participant of no remaining room, and the emits are exactly one `user-left`
room broadcast per room that contained the user, in registry order. -/
theorem c5_disconnect_cleanup (st : ServerState) (sock : SocketId) (u : UserId)
    (rec : UserRec) (now : Nat)
    (hu : mfind st.socketToUser sock = some u)
    (hd : mfind st.directory u = some rec) :
    mfind (onDisconnect st sock now).1.activeUsers u = none
    ∧ mfind (onDisconnect st sock now).1.socketToUser sock = none
    ∧ mfind (onDisconnect st sock now).1.directory u =
        some { rec with isOnline := false, lastSeen := now }
    ∧ (onDisconnect st sock now).1.meetings = st.meetings.filterMap (cleanupEntry u)
    ∧ (∀ e ∈ (onDisconnect st sock now).1.meetings, mfind e.2 u = none)
    ∧ (onDisconnect st sock now).2 =
        (st.meetings.filter (fun e => (mfind e.2 u).isSome)).map
          (fun e => ⟨EmitTarget.room e.1, Payload.userLeft u (mfind e.2 u)⟩) := by
  have hmeet : (onDisconnect st sock now).1.meetings =
      st.meetings.filterMap (cleanupEntry u) := by
    simp only [onDisconnect, hu]
    exact cleanupRooms_fst u st.meetings
  refine ⟨?_, ?_, ?_, hmeet, ?_, ?_⟩
  · simp [onDisconnect, hu, mfind_merase_self]
  · simp [onDisconnect, hu, mfind_merase_self]
  · simp [onDisconnect, hu, updateUser, hd, mfind_mset_self]
  · intro e he
    rw [hmeet] at he
    obtain ⟨a, _, hae⟩ := List.mem_filterMap.mp he
    cases hp : mfind a.2 u with
    | none =>
      simp only [cleanupEntry, hp, Option.some.injEq] at hae
      subst hae; exact hp
    | some h =>
      simp only [cleanupEntry, hp] at hae
      by_cases hemp : (merase a.2 u).isEmpty = true
      · simp [hemp] at hae
      · rw [if_neg hemp] at hae
        injection hae with hae
        subst hae
        exact mfind_merase_self a.2 u
  · simp only [onDisconnect, hu]
    exact cleanupRooms_snd u st.meetings

/-- C5 witness: disconnecting socket 1 (user 7) in `baseState` clears the
user's `activeUsers` binding. -/
theorem c5_witness :
    mfind (onDisconnect baseState 1 50).1.activeUsers 7 = none :=
  (c5_disconnect_cleanup baseState 1 7 ⟨some 100, true, 0⟩ 50 rfl rfl).1

/-- C6: a join-meeting by a userId that is already a participant of the target
meeting is rejected with the `User already in meeting` failure sent only to
the caller, and the meetings registry, `activeUsers`, and `socketToUser` are
all left unchanged. -/
theorem c6_duplicate_join_rejected (st : ServerState) (sock : SocketId)
    (meetingId : RoomId) (u : UserId) (rec : UserRec) (parts : Parts)
    (fh : Handle)
    (hm : mfind st.meetings meetingId = some parts)
    (hd : mfind st.directory u = some rec)
    (hp : (mfind parts u).isSome = true) :
    (onJoinMeeting st sock meetingId (Cred.valid u) fh).1.meetings = st.meetings
    ∧ (onJoinMeeting st sock meetingId (Cred.valid u) fh).1.activeUsers =
        st.activeUsers
    ∧ (onJoinMeeting st sock meetingId (Cred.valid u) fh).1.socketToUser =
        st.socketToUser
    ∧ (onJoinMeeting st sock meetingId (Cred.valid u) fh).2 =
        [⟨EmitTarget.caller sock, Payload.joinFailed "User already in meeting"⟩] := by
  simp [onJoinMeeting, jwtVerify, hm, hd, hp]

/-- C6 witness: user 7 attempting to re-join meeting 5 in `baseState` is
rejected with the `User already in meeting` failure to the caller alone. -/
theorem c6_witness :
    (onJoinMeeting baseState 1 5 (Cred.valid 7) 999).2 =
      [⟨EmitTarget.caller 1, Payload.joinFailed "User already in meeting"⟩] :=
  (c6_duplicate_join_rejected baseState 1 5 7 ⟨some 100, true, 0⟩
    [(7, 100), (8, 200)] 999 rfl rfl rfl).2.2.2

/-- C7: both join entry points of the wired controller apply the same
unknown-roomId policy, namely rejection: a socket `join-meeting` for a
nonexistent meeting answers `join-failed` with `Meeting does not exist` and an
HTTP `joinMeeting` answers 400 `Meeting not found`, in both cases with no
state change. Neither entry point auto-creates, so exactly one policy is
applied uniformly. -/
theorem c7_unknown_room_rejected_uniformly (st : ServerState) (sock : SocketId)
    (roomId : RoomId) (cred : Cred) (fh : Handle)
    (hm : mfind st.meetings roomId = none) :
    onJoinMeeting st sock roomId cred fh =
      (st, [⟨EmitTarget.caller sock, Payload.joinFailed "Meeting does not exist"⟩])
    ∧ joinMeeting st (some cred) roomId fh =
      (st, { status := 400, success := false, message := some "Meeting not found",
             meetingId := none, videoCallId := none }, []) := by
  constructor
  · simp [onJoinMeeting, hm]
  · simp [joinMeeting, hm]

/-- C7 witness: meeting 99 does not exist in `baseState`; the socket join is
rejected with `Meeting does not exist` and no state change. -/
theorem c7_witness :
    onJoinMeeting baseState 1 99 (Cred.valid 7) 999 =
      (baseState, [⟨EmitTarget.caller 1, Payload.joinFailed "Meeting does not exist"⟩]) :=
  (c7_unknown_room_rejected_uniformly baseState 1 99 (Cred.valid 7) 999 rfl).1

/-- C8: immediately after a successful authenticate with a valid credential
encoding `u` on socket `sock`, resolving the socket through `socketToUser`
returns exactly `u`, and resolving `u` through `activeUsers` returns exactly
`sock`. -/
theorem c8_authenticate_binds_both_directions (st : ServerState)
    (sock : SocketId) (u : UserId) (rec : UserRec) (fh : Handle) (now : Nat)
    (hd : mfind st.directory u = some rec) :
    mfind (onAuthenticate st sock (Cred.valid u) fh now).1.socketToUser sock = some u
    ∧ mfind (onAuthenticate st sock (Cred.valid u) fh now).1.activeUsers u = some sock := by
  simp [onAuthenticate, jwtVerify, hd, mfind_mset_self]

/-- C8 witness: user 7 authenticating on socket 1 from `c1State` is resolvable
in both directions afterwards. -/
theorem c8_witness :
    mfind (onAuthenticate c1State 1 (Cred.valid 7) 999 10).1.socketToUser 1 = some 7 :=
  (c8_authenticate_binds_both_directions c1State 1 7 ⟨some 100, false, 0⟩ 999 10 rfl).1

/-- C10: HTTP `joinMeeting` is idempotent for an already-joined user: it
answers 200 success with the requested meetingId and the user's current
handle, leaves the entire state (roster included) unchanged, and emits no
broadcast — while the socket `join-meeting` surface rejects the same situation
with the `User already in meeting` failure and also leaves the state
unchanged. -/
theorem c10_http_join_idempotent (st : ServerState) (sock : SocketId)
    (roomId : RoomId) (u : UserId) (rec : UserRec) (parts : Parts)
    (h h0 fh fh2 : Handle)
    (hm : mfind st.meetings roomId = some parts)
    (hd : mfind st.directory u = some rec)
    (hh : rec.videoCallId = some h)
    (hp : mfind parts u = some h0) :
    joinMeeting st (some (Cred.valid u)) roomId fh =
      (st, { status := 200, success := true, message := some "Meeting joined",
             meetingId := some roomId, videoCallId := some h }, [])
    ∧ onJoinMeeting st sock roomId (Cred.valid u) fh2 =
      (st, [⟨EmitTarget.caller sock, Payload.joinFailed "User already in meeting"⟩]) := by
  constructor
  · simp [joinMeeting, jwtVerify, hm, hd, hh, hp]
  · simp [onJoinMeeting, jwtVerify, hm, hd, hh, hp]

/-- C10 witness: user 7 is already in meeting 5 of `baseState`; the HTTP join
answers success with meeting 5 and handle 100 while changing nothing. -/
theorem c10_witness :
    joinMeeting baseState (some (Cred.valid 7)) 5 999 =
      (baseState, { status := 200, success := true, message := some "Meeting joined",
                    meetingId := some 5, videoCallId := some 100 }, []) :=
  (c10_http_join_idempotent baseState 1 5 7 ⟨some 100, true, 0⟩
    [(7, 100), (8, 200)] 100 100 999 998 rfl rfl rfl rfl).1

/-- C9: the HTTP surface and the socket event surface operate on the same
Room Registry (the module-level `meetings` map). (a) A room created via HTTP
`createMeeting` is found by a subsequent socket `join-meeting`, which succeeds
and installs the joiner. (b) A participant added via HTTP `joinMeeting` is
visible to the socket surface: the duplicate-join check sees them and answers
`User already in meeting`. (c) Conversely a participant added via socket
`join-meeting` is visible to HTTP `joinMeeting`, which takes its
already-present branch and leaves the roster unchanged while answering with
the participant's handle. -/
theorem c9_shared_room_registry (st : ServerState) (sock : SocketId)
    (fresh roomId : RoomId) (u : UserId) (rec : UserRec) (parts : Parts)
    (h fh fh2 : Handle)
    (hd : mfind st.directory u = some rec)
    (hh : rec.videoCallId = some h)
    (hmr : mfind st.meetings roomId = some parts)
    (hp0 : mfind parts u = none) :
    ((onJoinMeeting (createMeeting st fresh).1 sock fresh (Cred.valid u) fh2).2 =
        [⟨EmitTarget.roomExceptCaller fresh sock,
           Payload.userJoinedOthers u h fresh⟩,
         ⟨EmitTarget.caller sock, Payload.userJoinedSelf u h fresh []⟩]
      ∧ mfind (onJoinMeeting (createMeeting st fresh).1 sock fresh
          (Cred.valid u) fh2).1.meetings fresh = some [(u, h)])
    ∧ (mfind (joinMeeting st (some (Cred.valid u)) roomId fh).1.meetings roomId =
          some (mset parts u h)
      ∧ (onJoinMeeting (joinMeeting st (some (Cred.valid u)) roomId fh).1
            sock roomId (Cred.valid u) fh2).2 =
          [⟨EmitTarget.caller sock, Payload.joinFailed "User already in meeting"⟩])
    ∧ ((joinMeeting (onJoinMeeting st sock roomId (Cred.valid u) fh2).1
          (some (Cred.valid u)) roomId fh).1.meetings =
        (onJoinMeeting st sock roomId (Cred.valid u) fh2).1.meetings
      ∧ (joinMeeting (onJoinMeeting st sock roomId (Cred.valid u) fh2).1
          (some (Cred.valid u)) roomId fh).2.1.videoCallId = some h) := by
  refine ⟨⟨?_, ?_⟩, ⟨?_, ?_⟩, ⟨?_, ?_⟩⟩
  · simp [createMeeting, onJoinMeeting, jwtVerify, hd, hh, mfind_mset_self, mfind]
  · simp [createMeeting, onJoinMeeting, jwtVerify, hd, hh, mfind_mset_self, mfind, mset]
  · simp [joinMeeting, jwtVerify, hmr, hd, hh, hp0, mfind_mset_self]
  · simp [joinMeeting, onJoinMeeting, jwtVerify, hmr, hd, hh, hp0, mfind_mset_self]
  · simp [onJoinMeeting, joinMeeting, jwtVerify, hmr, hd, hh, hp0, mfind_mset_self]
  · simp [onJoinMeeting, joinMeeting, jwtVerify, hmr, hd, hh, hp0, mfind_mset_self]

/-- C9 witness: in `c4State`, user 8 joins HTTP-created meeting 42 through the
socket surface and is present in its roster afterwards. -/
theorem c9_witness :
    mfind (onJoinMeeting (createMeeting c4State 42).1 2 42
        (Cred.valid 8) 998).1.meetings 42 = some [(8, 200)] :=
  (c9_shared_room_registry c4State 2 42 5 8 ⟨some 200, true, 0⟩ [(7, 100)]
    200 999 998 rfl rfl rfl rfl).1.2

end VideoChat
